import Mathlib

/-!
Shallow embedding of `launch-darkly-react-native-client-factory`.

The repository contains two iterations of the same factory:
  * `src/factory.tsx` (the "Factory" variant below), and
  * an unnamed newer iteration (the "Part003" variant below) with an
    initialization guard, key validation in the async accessor, and a
    synchronous escape-hatch reader.

JavaScript values that can flow through the flag paths are modelled by
`FlagVal`; `undefined` is modelled by `Option`; a thrown value or a
rejected promise is modelled by `Except JsError`.
-/

namespace LDFactory

/-- The four constructor "type tags" (`Boolean`, `Number`, `String`,
`Object`) used by the registry (`factory.types.ts`). -/
inductive FlagType
  | boolean
  | number
  | string
  | object
deriving DecidableEq, Repr

/-- A runtime JavaScript value appearing as a flag value.  `obj raw` is a
parsed JS object identified by its JSON serialization `raw`; a serialized
(unparsed) JSON result is just a JS string, `s raw`. -/
inductive FlagVal
  | b : Bool → FlagVal
  | n : Int → FlagVal
  | s : String → FlagVal
  | obj : String → FlagVal
deriving DecidableEq, Repr

/-- JavaScript truthiness of a `FlagVal` (`false`, `0`, `""` are falsy;
objects are always truthy). -/
def FlagVal.truthy : FlagVal → Bool
  | .b v => v
  | .n v => v != 0
  | .s v => v != ""
  | .obj _ => true

/-- Truthiness of a possibly-`undefined` value (`undefined` is falsy). -/
def jsTruthy : Option FlagVal → Bool
  | none => false
  | some v => v.truthy

/-- A thrown JS value: either an explicit `throw "msg"` from the source, or
a runtime `TypeError` (e.g. reading a property of `undefined`). -/
inductive JsError
  | thrown : String → JsError
  | typeError : String → JsError
deriving DecidableEq, Repr

/-- One registry entry: `{ type, defaultVal }` (`factory.types.ts`,
`FeatureFlag`). -/
structure FeatureFlagDecl where
  type : FlagType
  defaultVal : FlagVal
deriving DecidableEq, Repr

/-- The flag registry `featureFlags : NamedFlags`, a JS object mapping flag
names to declarations, modelled as an association list in key order. -/
abbrev Registry := List (String × FeatureFlagDecl)

/-- `featureFlags[key]`: JS property lookup on the registry object. -/
def lookupFlag (featureFlags : Registry) (key : String) : Option FeatureFlagDecl :=
  (featureFlags.find? (fun p => p.1 == key)).map (·.2)

/-- The provider's flag value snapshot: a JS object mapping a subset of the
flag names to their current resolved values. -/
abbrev Snapshot := List (String × FlagVal)

/-- `flags[key]`: JS property lookup on a snapshot object. -/
def lookupSnap (flags : Snapshot) (key : String) : Option FlagVal :=
  (flags.find? (fun p => p.1 == key)).map (·.2)

/-- The JS spread update `\x7b ...oldFlags, [updatedKey]: newFlag \x7d`. -/
def insertFlag (key : String) (v : FlagVal) (flags : Snapshot) : Snapshot :=
  (key, v) :: flags

/-- The opaque LaunchDarkly client handle, exposing the per-type variation
fetchers the factory calls.  The variation default parameter carries the
(possibly `undefined`) resolved default the source passes through casts.
`jsonVariation` returns a serialized JSON string. -/
structure LDClient where
  clientId : Nat
  boolVariation : String → Option FlagVal → Bool
  numberVariation : String → Option FlagVal → Int
  stringVariation : String → Option FlagVal → String
  jsonVariation : String → Option FlagVal → String

/-- `JSON.parse`, modelled abstractly: parsing a serialized string yields
the parsed object value it denotes. -/
def jsonParse (raw : String) : FlagVal := .obj raw

/-- JS `a ?? b` where `a` may be `undefined` and `b` may throw. -/
def jsNullish (a : Option FlagVal) (b : Except JsError FlagVal) : Except JsError FlagVal :=
  match a with
  | some v => .ok v
  | none => b

/-- JS `a || b` where `a` may be `undefined` and `b` may throw. -/
def jsOr (a : Option FlagVal) (b : Except JsError FlagVal) : Except JsError FlagVal :=
  match a with
  | some v => if v.truthy then .ok v else b
  | none => b

/-- A key argument as it can arrive at runtime through the escape hatch:
a string, or a non-string value (the source checks `typeof key !== "string"`). -/
inductive JsKey
  | str : String → JsKey
  | nonString : JsKey
deriving DecidableEq, Repr

/-! ### The newer factory iteration (unnamed source file) -/

namespace Part003

/-- `getFeatureFlagAsync` (newer iteration): validates the key, falls back
to defaults when no client exists (after an informational `console.log`,
elided here), and otherwise dispatches on the declared flag type.  Note the
`Object` branch returns `jsonVariation`'s serialized string as-is. -/
def getFeatureFlagAsync (featureFlags : Registry) (globalLdClient : Option LDClient)
    (key : JsKey) (defaultVal : Option FlagVal) : Except JsError FlagVal :=
  match key with
  | .nonString => .error (.thrown "non string key passed to getFeatureFlag")
  | .str k =>
    match lookupFlag featureFlags k with
    | none => .error (.thrown "unregistered key passed to getFeatureFlag")
    | some decl =>
      match globalLdClient with
      | none => .ok (defaultVal.getD decl.defaultVal)
      | some ldClient =>
        let dv := defaultVal.getD decl.defaultVal
        match decl.type with
        | .boolean => .ok (.b (ldClient.boolVariation k (some dv)))
        | .number => .ok (.n (ldClient.numberVariation k (some dv)))
        | .string => .ok (.s (ldClient.stringVariation k (some dv)))
        | .object => .ok (.s (ldClient.jsonVariation k (some dv)))

/-- `getFeatureFlagEscapeHatch` (exported as `getFeatureFlag` in the newer
iteration): `escapeHatchFlags?.[key] || defaultVal || featureFlags[key].defaultVal`.
Reading `.defaultVal` of an unregistered key's `undefined` entry raises a
`TypeError`. -/
def getFeatureFlagEscapeHatch (featureFlags : Registry) (escapeHatchFlags : Option Snapshot)
    (key : String) (defaultVal : Option FlagVal) : Except JsError FlagVal :=
  jsOr (escapeHatchFlags.bind (fun f => lookupSnap f key))
    (jsOr defaultVal
      (match lookupFlag featureFlags key with
        | some decl => .ok decl.defaultVal
        | none => .error (.typeError "cannot read defaultVal of undefined")))

end Part003

/-- `useFeatureFlag` (identical in both iterations):
`flags?.[key] ?? defaultVal ?? featureFlags[key].defaultVal`, where `flags`
is the snapshot read from context (or `undefined` before the provider has
populated it). -/
def useFeatureFlag (featureFlags : Registry) (flags : Option Snapshot)
    (key : String) (defaultVal : Option FlagVal) : Except JsError FlagVal :=
  jsNullish (flags.bind (fun f => lookupSnap f key))
    (jsNullish defaultVal
      (match lookupFlag featureFlags key with
        | some decl => .ok decl.defaultVal
        | none => .error (.typeError "cannot read defaultVal of undefined")))

/-! ### The `factory.tsx` iteration's global accessor pair -/

namespace Factory

/-- The initial value of the `globalGetFeatureFlag` singleton in
`factory.tsx`: `Promise.resolve(defaultVal ?? featureFlags[key]?.defaultVal)`.
It never rejects; an unregistered key with no caller default resolves to
`undefined` (`none`). -/
def globalGetFeatureFlagInitial (featureFlags : Registry) (key : String)
    (defaultVal : Option FlagVal) : Except JsError (Option FlagVal) :=
  .ok (match defaultVal with
    | some d => some d
    | none => (lookupFlag featureFlags key).map (·.defaultVal))

/-- `getGetFeatureFlag ldClient` in `factory.tsx`: dispatches on
`featureFlags[key]?.type`; the `Object` branch parses the serialized
`jsonVariation` result; an unrecognized (unregistered) type yields
`undefined`. -/
def getGetFeatureFlag (featureFlags : Registry) (ldClient : LDClient)
    (key : String) (defaultVal : Option FlagVal) : Except JsError (Option FlagVal) :=
  let defaultVal2 : Option FlagVal :=
    match defaultVal with
    | some d => some d
    | none => (lookupFlag featureFlags key).map (·.defaultVal)
  match (lookupFlag featureFlags key).map (·.type) with
  | some FlagType.boolean => .ok (some (.b (ldClient.boolVariation key defaultVal2)))
  | some FlagType.number => .ok (some (.n (ldClient.numberVariation key defaultVal2)))
  | some FlagType.string => .ok (some (.s (ldClient.stringVariation key defaultVal2)))
  | some FlagType.object => .ok (some (jsonParse (ldClient.jsonVariation key defaultVal2)))
  | none => .ok none

/-- The pair of module-level mutable singletons in `factory.tsx`:
`globalLdClient` and `globalGetFeatureFlag` (the latter is either its
initial default-resolving closure or the fetcher bound to a client). -/
inductive GlobalGFF
  | initial : GlobalGFF
  | bound : LDClient → GlobalGFF

/-- The state of the two module-level singletons. -/
structure GlobalState where
  globalLdClient : Option LDClient
  globalGetFeatureFlag : GlobalGFF

/-- Module load time: no client, initial closure. -/
def initialGlobalState : GlobalState := ⟨none, .initial⟩

/-- `getGlobalLdClient()`. -/
def getGlobalLdClient (st : GlobalState) : Option LDClient := st.globalLdClient

/-- `setGlobalLdClient(ldClient)`: stores the handle and rebinds
`globalGetFeatureFlag` to `getGetFeatureFlag(ldClient)`. -/
def setGlobalLdClient (ldClient : LDClient) (_st : GlobalState) : GlobalState :=
  ⟨some ldClient, .bound ldClient⟩

/-- The exported escape hatch `getFeatureFlag` in `factory.tsx`: delegates
to whatever `globalGetFeatureFlag` currently holds. -/
def getFeatureFlag (featureFlags : Registry) (st : GlobalState) (key : String)
    (defaultVal : Option FlagVal) : Except JsError (Option FlagVal) :=
  match st.globalGetFeatureFlag with
  | .initial => globalGetFeatureFlagInitial featureFlags key defaultVal
  | .bound c => getGetFeatureFlag featureFlags c key defaultVal

/-- A sequence of `setGlobalLdClient` calls applied in order. -/
def runSets (cs : List LDClient) (st : GlobalState) : GlobalState :=
  cs.foldl (fun acc c => setGlobalLdClient c acc) st

end Factory

/-! ### Concrete example registry and client (the README/doc-comment registry) -/

/-- The registry from the factory's own doc comment. -/
def exampleRegistry : Registry :=
  [ ("example-boolean-feature-flag", ⟨.boolean, .b false⟩)
  , ("example-number-feature-flag", ⟨.number, .n 123⟩)
  , ("example-string-feature-flag", ⟨.string, .s "asdf"⟩)
  , ("example-json-feature-flag", ⟨.object, .obj "\x7b\x7d"⟩) ]

/-- A concrete client handle for witnesses and counterexamples. -/
def exampleClient : LDClient :=
  { clientId := 7
  , boolVariation := fun _ _ => true
  , numberVariation := fun _ _ => 456
  , stringVariation := fun _ _ => "live"
  , jsonVariation := fun _ _ => "null" }

/-- A constructor environment: `mk i` is the client produced by the
`i`-th evaluation of `new LDClient()` in a run. -/
def mkExampleClient (i : Nat) : LDClient :=
  { clientId := i
  , boolVariation := fun _ _ => false
  , numberVariation := fun _ _ => 0
  , stringVariation := fun _ _ => ""
  , jsonVariation := fun _ _ => "null" }

/-! ### Provider initialization state machines

The provider props `context` / `config` are opaque to the factory; only
presence matters, so they are modelled as `Nat`. -/

abbrev LDContext := Nat
abbrev LDConfig := Nat

/-- The provider's local `client` state: `useState<LDClient | "loading...">()`. -/
inductive ClientSlot
  | loading : ClientSlot
  | ready : LDClient → ClientSlot

/-- State touched by the provider's initialization effect: the global
singleton, the local `client` state, whether an initialization async block
is in flight, and how many `new LDClient()` construction (with its
`identify` / `configure` sequence) evaluations have happened. -/
structure InitState where
  globalLdClient : Option LDClient
  client : Option ClientSlot
  pendingInit : Bool
  initCount : Nat

/-- Before the provider's first effect run. -/
def initialInitState : InitState :=
  { globalLdClient := none, client := none, pendingInit := false, initCount := 0 }

/-- Events interleaving on the single-threaded callback queue: an effect
run triggered by a `[context, config]` dep change, or the completion of an
in-flight initialization async block. -/
inductive InitEvent
  | propsChange : Option LDContext → Option LDConfig → InitEvent
  | asyncComplete : InitEvent

namespace Part003

/-- One step of the newer iteration's initialization effect.  On a props
change with both props present it checks the guard
`if (getGlobalLdClient() || client) return`, and when the guard passes it
sets `client` to `"loading..."` synchronously and starts the async block;
the async block's completion constructs the client, sets the local state
and the global singleton. -/
def initStep (mk : Nat → LDClient) (st : InitState) : InitEvent → InitState
  | .propsChange context config =>
    match context, config with
    | some _, some _ =>
      if st.globalLdClient.isSome || st.client.isSome then st
      else { st with client := some .loading, pendingInit := true }
    | _, _ => st
  | .asyncComplete =>
    if st.pendingInit then
      let newClient := mk st.initCount
      { globalLdClient := some newClient
      , client := some (.ready newClient)
      , pendingInit := false
      , initCount := st.initCount + 1 }
    else st

/-- A whole event sequence. -/
def runInit (mk : Nat → LDClient) (events : List InitEvent) (st : InitState) : InitState :=
  events.foldl (initStep mk) st

end Part003

namespace Factory

/-- One run of the `factory.tsx` initialization effect (lines 127-159):
no guard — whenever both `context` and `config` are present it constructs
a new client, identifies, configures, and overwrites the local state and
the global singleton.  (The async block is collapsed to one atomic step;
the listener wiring of the same effect is modelled separately.) -/
def initStepTsx (mk : Nat → LDClient) (st : InitState)
    (context : Option LDContext) (config : Option LDConfig) : InitState :=
  match context, config with
  | some _, some _ =>
    let newClient := mk st.initCount
    { globalLdClient := some newClient
    , client := some (.ready newClient)
    , pendingInit := false
    , initCount := st.initCount + 1 }
  | _, _ => st

end Factory

/-! ### Listener registration, snapshot maintenance and teardown -/

/-- The state a mounted provider shares with the client: the multiset of
flag keys for which this provider's per-flag listener is currently
registered on the client, the provider's snapshot (`flags` state), and
whether React holds a cleanup function for the listeners effect. -/
structure ProviderWorld where
  registered : List String
  flags : Snapshot
  hasCleanup : Bool

/-- A provider world before the listeners effect has run. -/
def freshWorld : ProviderWorld := { registered := [], flags := [], hasCleanup := false }

namespace Part003

/-- The body of one per-flag `listener(updatedKey)` call: fetch the flag
through `getFeatureFlagAsync` (which reads the global client) and merge it
into the snapshot; a rejected fetch leaves the snapshot untouched. -/
def listenerStep (featureFlags : Registry) (globalLdClient : Option LDClient)
    (flags : Snapshot) (updatedKey : String) : Snapshot :=
  match getFeatureFlagAsync featureFlags globalLdClient (.str updatedKey) none with
  | .ok v => insertFlag updatedKey v flags
  | .error _ => flags

/-- The listeners effect of the newer iteration (runs once the local
`client` state is a real client, at which point the global singleton holds
the same client): for every registry key, call the listener once for the
initial fetch and register it; React stores the returned cleanup. -/
def readyEffect (featureFlags : Registry) (ldClient : LDClient)
    (w : ProviderWorld) : ProviderWorld :=
  { registered := w.registered ++ featureFlags.map Prod.fst
  , flags := (featureFlags.map Prod.fst).foldl (listenerStep featureFlags (some ldClient)) w.flags
  , hasCleanup := true }

/-- Running the destructor list returned by the effect: for each registry
key, `unregisterFeatureFlagListener(key, listener)` removes that one
listener registration. -/
def runDestructors (featureFlags : Registry) (registered : List String) : List String :=
  featureFlags.foldl (fun r p => r.erase p.1) registered

/-- Unmounting the provider in the newer iteration: React invokes the
stored cleanup, which runs every destructor. -/
def unmount (featureFlags : Registry) (w : ProviderWorld) : ProviderWorld :=
  if w.hasCleanup then { w with registered := runDestructors featureFlags w.registered }
  else w

end Part003

namespace Factory

/-- The listener wiring inside the `factory.tsx` initialization effect:
identical registrations and initial fetches, but the destructor-running
cleanup is returned from the inner `async` IIFE — it becomes the resolved
value of an unused promise, and the effect function itself returns
`undefined`, so React stores no cleanup. -/
def readyEffectTsx (featureFlags : Registry) (ldClient : LDClient)
    (w : ProviderWorld) : ProviderWorld :=
  { registered := w.registered ++ featureFlags.map Prod.fst
  , flags := (featureFlags.map Prod.fst).foldl
      (Part003.listenerStep featureFlags (some ldClient)) w.flags
  , hasCleanup := false }

/-- Unmounting the `factory.tsx` provider: React holds no cleanup for the
effect, so nothing is unregistered. -/
def unmountTsx (w : ProviderWorld) : ProviderWorld :=
  if w.hasCleanup then w else w

end Factory

/-- Delivery of a flag-change event from the client for key `k`: the
client invokes the registered listener for `k`, if any. -/
def deliverFlagChange (featureFlags : Registry) (globalLdClient : Option LDClient)
    (w : ProviderWorld) (k : String) : ProviderWorld :=
  if w.registered.contains k then
    { w with flags := Part003.listenerStep featureFlags globalLdClient w.flags k }
  else w

/-! ### The `useAllFeatureFlags` hook -/

/-- State of one `useAllFeatureFlags` hook instance: its private snapshot
and the ids under which its bulk all-flags listener is registered on the
client. -/
structure AllFlagsWorld where
  flags : Snapshot
  registeredIds : List String

/-- A hook instance before its effect has run. -/
def freshAllFlagsWorld : AllFlagsWorld := { flags := [], registeredIds := [] }

namespace Part003

/-- The bulk listener body: for each key in the `updatedKeys` batch, fetch
it through `getFeatureFlagAsync` and merge it into the hook's snapshot. -/
def allFlagsListener (featureFlags : Registry) (globalLdClient : Option LDClient)
    (flags : Snapshot) (updatedKeys : List String) : Snapshot :=
  updatedKeys.foldl (listenerStep featureFlags globalLdClient) flags

/-- The hook's effect once the context client is a real client (the global
singleton holds the same client): register the bulk listener under a
unique id, then invoke it once with every registry key to fetch initial
values. -/
def allFlagsEffect (featureFlags : Registry) (ldClient : LDClient) (uniqueId : String)
    (w : AllFlagsWorld) : AllFlagsWorld :=
  { registeredIds := w.registeredIds ++ [uniqueId]
  , flags := allFlagsListener featureFlags (some ldClient) w.flags (featureFlags.map Prod.fst) }

/-- The hook's effect cleanup (run on unmount or when the context client
identity changes): `unregisterAllFlagsListener(uniqueId)`. -/
def allFlagsCleanup (uniqueId : String) (w : AllFlagsWorld) : AllFlagsWorld :=
  { w with registeredIds := w.registeredIds.erase uniqueId }

end Part003

/-- The value `getFeatureFlagAsync` fetches for a registered key with no
caller default when a client is live: the declared type picks the
variation call, with the registry default passed through. -/
def variationValue (ldClient : LDClient) (k : String) (decl : FeatureFlagDecl) : FlagVal :=
  match decl.type with
  | .boolean => .b (ldClient.boolVariation k (some decl.defaultVal))
  | .number => .n (ldClient.numberVariation k (some decl.defaultVal))
  | .string => .s (ldClient.stringVariation k (some decl.defaultVal))
  | .object => .s (ldClient.jsonVariation k (some decl.defaultVal))

/-! ### Helper lemmas -/

theorem lookupSnap_insert_self (k : String) (v : FlagVal) (f : Snapshot) :
    lookupSnap (insertFlag k v f) k = some v := by
  simp [lookupSnap, insertFlag, List.find?_cons_of_pos]

theorem lookupSnap_insert_ne (k k2 : String) (v : FlagVal) (f : Snapshot) (h : k2 ≠ k) :
    lookupSnap (insertFlag k v f) k2 = lookupSnap f k2 := by
  have hne : ¬ (k == k2) = true := by
    simp only [beq_iff_eq]
    exact fun hc => h hc.symm
  simp [lookupSnap, insertFlag, List.find?_cons_of_neg, hne]

theorem mem_keys_of_lookupFlag (ff : Registry) (k : String) (decl : FeatureFlagDecl)
    (h : lookupFlag ff k = some decl) : k ∈ ff.map Prod.fst := by
  unfold lookupFlag at h
  cases hf : ff.find? (fun p => p.1 == k) with
  | none => rw [hf] at h; simp at h
  | some p =>
    have hp := List.find?_some hf
    have hmem : p ∈ ff := List.mem_of_find?_eq_some hf
    have hk : p.1 = k := by simpa using hp
    rw [← hk]
    exact List.mem_map_of_mem Prod.fst hmem

theorem getFeatureFlagAsync_registered (ff : Registry) (c : LDClient) (k : String)
    (decl : FeatureFlagDecl) (h : lookupFlag ff k = some decl) :
    Part003.getFeatureFlagAsync ff (some c) (.str k) none = .ok (variationValue c k decl) := by
  obtain ⟨t, d0⟩ := decl
  cases t <;> simp [Part003.getFeatureFlagAsync, variationValue, h]

theorem lookupSnap_foldl_not_mem (ff : Registry) (gc : Option LDClient)
    (ks : List String) (flags : Snapshot) (k : String) (hk : k ∉ ks) :
    lookupSnap (ks.foldl (Part003.listenerStep ff gc) flags) k = lookupSnap flags k := by
  induction ks generalizing flags with
  | nil => rfl
  | cons k1 rest ih =>
    have hk1 : k ≠ k1 := fun hc => hk (hc ▸ List.mem_cons_self k1 rest)
    have hkr : k ∉ rest := fun hc => hk (List.mem_cons_of_mem k1 hc)
    rw [List.foldl_cons, ih _ hkr]
    unfold Part003.listenerStep
    cases Part003.getFeatureFlagAsync ff gc (.str k1) none with
    | ok v => exact lookupSnap_insert_ne k1 k v flags hk1
    | error e => rfl

theorem lookupSnap_foldl_mem (ff : Registry) (c : LDClient)
    (ks : List String) (flags : Snapshot) (k : String) (decl : FeatureFlagDecl)
    (hdecl : lookupFlag ff k = some decl) (hk : k ∈ ks) :
    lookupSnap (ks.foldl (Part003.listenerStep ff (some c)) flags) k
      = some (variationValue c k decl) := by
  induction ks generalizing flags with
  | nil => cases hk
  | cons k1 rest ih =>
    rw [List.foldl_cons]
    by_cases hr : k ∈ rest
    · exact ih _ hr
    · have hk1 : k = k1 := by
        cases List.mem_cons.mp hk with
        | inl h => exact h
        | inr h => exact absurd h hr
      subst hk1
      rw [lookupSnap_foldl_not_mem ff (some c) rest _ k hr]
      unfold Part003.listenerStep
      rw [getFeatureFlagAsync_registered ff c k decl hdecl]
      exact lookupSnap_insert_self k (variationValue c k decl) flags

theorem runDestructors_nil (ff : Registry) : Part003.runDestructors ff [] = [] := by
  induction ff with
  | nil => rfl
  | cons p rest ih =>
    unfold Part003.runDestructors at ih ⊢
    rw [List.foldl_cons, List.erase_nil]
    exact ih

theorem runDestructors_keys (ff : Registry) :
    Part003.runDestructors ff (ff.map Prod.fst) = [] := by
  induction ff with
  | nil => rfl
  | cons p rest ih =>
    unfold Part003.runDestructors at ih ⊢
    rw [List.map_cons, List.foldl_cons, List.erase_cons_head]
    exact ih

/-- Invariant of the newer iteration's initialization machine: at most one
construction has been started (counting the in-flight one), and as soon as
one has been started the local `client` state is set, which is exactly
what the guard tests. -/
def InitInv (st : InitState) : Prop :=
  st.initCount + (if st.pendingInit then 1 else 0) ≤ 1 ∧
  (1 ≤ st.initCount + (if st.pendingInit then 1 else 0) → st.client.isSome = true)

theorem initStep_inv (mk : Nat → LDClient) (st : InitState) (e : InitEvent)
    (h : InitInv st) : InitInv (Part003.initStep mk st e) := by
  obtain ⟨h1, h2⟩ := h
  cases e with
  | propsChange context config =>
    cases context with
    | none => cases config <;> exact ⟨h1, h2⟩
    | some ctx =>
      cases config with
      | none => exact ⟨h1, h2⟩
      | some cfg =>
        show InitInv (if st.globalLdClient.isSome || st.client.isSome then st
          else { st with client := some ClientSlot.loading, pendingInit := true })
        by_cases hg : (st.globalLdClient.isSome || st.client.isSome) = true
        · rw [if_pos hg]
          exact ⟨h1, h2⟩
        · rw [if_neg hg]
          have hcl : st.client.isSome = false := by
            cases hv : st.client.isSome with
            | false => rfl
            | true =>
              rw [hv, Bool.or_true] at hg
              exact absurd rfl hg
          have hzero : st.initCount + (if st.pendingInit then 1 else 0) = 0 := by
            by_contra hc
            rw [h2 (Nat.one_le_iff_ne_zero.mpr hc)] at hcl
            simp at hcl
          cases hpv : st.pendingInit with
          | true =>
            rw [hpv] at hzero
            simp at hzero
          | false =>
            rw [hpv] at hzero
            simp at hzero
            constructor
            · simp [hzero]
            · intro _
              rfl
  | asyncComplete =>
    show InitInv (if st.pendingInit then
        { globalLdClient := some (mk st.initCount)
        , client := some (ClientSlot.ready (mk st.initCount))
        , pendingInit := false
        , initCount := st.initCount + 1 }
      else st)
    cases hpv : st.pendingInit with
    | false =>
      rw [if_neg Bool.false_ne_true]
      exact ⟨h1, h2⟩
    | true =>
      rw [if_pos rfl]
      rw [hpv] at h1
      simp at h1
      constructor
      · simp [h1]
      · intro _
        rfl

theorem runInit_inv (mk : Nat → LDClient) (events : List InitEvent) (st : InitState)
    (h : InitInv st) : InitInv (Part003.runInit mk events st) := by
  induction events generalizing st with
  | nil => exact h
  | cons e rest ih =>
    unfold Part003.runInit at ih ⊢
    rw [List.foldl_cons]
    exact ih _ (initStep_inv mk st e h)

/-! ### Claim theorems -/

/-- Claim C1: for every key in the flag registry, `useFeatureFlag` resolves
strictly in the order snapshot value (if present) → caller-supplied default
(if provided) → registry default; in particular, before the client is ready
(snapshot absent), `useFeatureFlag "example-boolean-feature-flag" true`
returns `true` even though the registry default is `false`. -/
theorem c1_useFeatureFlag_resolution_order (ff : Registry) (key : String)
    (decl : FeatureFlagDecl) (hk : lookupFlag ff key = some decl) :
    (∀ (f : Snapshot) (d : Option FlagVal) (v : FlagVal), lookupSnap f key = some v →
        useFeatureFlag ff (some f) key d = .ok v)
    ∧ (∀ (flags : Option Snapshot) (d : FlagVal),
        flags.bind (fun f => lookupSnap f key) = none →
        useFeatureFlag ff flags key (some d) = .ok d)
    ∧ (∀ (flags : Option Snapshot),
        flags.bind (fun f => lookupSnap f key) = none →
        useFeatureFlag ff flags key none = .ok decl.defaultVal)
    ∧ useFeatureFlag exampleRegistry none "example-boolean-feature-flag"
        (some (.b true)) = .ok (.b true) := by
  refine ⟨?_, ?_, ?_, rfl⟩
  · intro f d v hv
    simp [useFeatureFlag, jsNullish, hv]
  · intro flags d hnone
    simp [useFeatureFlag, jsNullish, hnone]
  · intro flags hnone
    simp [useFeatureFlag, jsNullish, hnone, hk]

/-- Claim C1 witness: with the snapshot still absent and no caller default,
the registered example key resolves to its registry default. -/
theorem c1_useFeatureFlag_resolution_order_witness :
    useFeatureFlag exampleRegistry none "example-boolean-feature-flag" none
      = .ok (FlagVal.b false) :=
  (c1_useFeatureFlag_resolution_order exampleRegistry "example-boolean-feature-flag"
    ⟨FlagType.boolean, FlagVal.b false⟩ (by decide)).2.2.1 none rfl

/-- Claim C2 counterexample: the claim fails — two of the escape-hatch
variants return a value for an unregistered key instead of failing: the
`factory.tsx` `getFeatureFlag` (still in its initial state) resolves with
the caller default, and the synchronous escape hatch returns a truthy
caller default. -/
theorem c2_counterexample :
    Factory.globalGetFeatureFlagInitial exampleRegistry "unregistered-key"
        (some (FlagVal.b true)) = .ok (some (FlagVal.b true))
    ∧ Part003.getFeatureFlagEscapeHatch exampleRegistry none "unregistered-key"
        (some (FlagVal.b true)) = .ok (FlagVal.b true) := ⟨rfl, rfl⟩

/-- Claim C2 (amended): only the newer iteration's `getFeatureFlagAsync`
fails with a descriptive thrown message for every non-string or
unregistered key; the `factory.tsx` accessor resolves without error to the
caller default or `undefined`, and the synchronous escape hatch returns a
truthy caller default or fails with an undescriptive `TypeError`. -/
theorem c2_escape_hatch_error_behavior (ff : Registry) (gc : Option LDClient)
    (k : String) (d : Option FlagVal) (hk : lookupFlag ff k = none) :
    Part003.getFeatureFlagAsync ff gc .nonString d
      = .error (.thrown "non string key passed to getFeatureFlag")
    ∧ Part003.getFeatureFlagAsync ff gc (.str k) d
      = .error (.thrown "unregistered key passed to getFeatureFlag")
    ∧ Factory.globalGetFeatureFlagInitial ff k d = .ok d
    ∧ (∀ c, Factory.getGetFeatureFlag ff c k d = .ok none)
    ∧ Part003.getFeatureFlagEscapeHatch ff none k none
      = .error (.typeError "cannot read defaultVal of undefined")
    ∧ (∀ v, FlagVal.truthy v = true →
        Part003.getFeatureFlagEscapeHatch ff none k (some v) = .ok v) := by
  refine ⟨rfl, ?_, ?_, ?_, ?_, ?_⟩
  · simp [Part003.getFeatureFlagAsync, hk]
  · cases d <;> simp [Factory.globalGetFeatureFlagInitial, hk]
  · intro c
    simp [Factory.getGetFeatureFlag, hk]
  · simp [Part003.getFeatureFlagEscapeHatch, jsOr, hk]
  · intro v hv
    simp [Part003.getFeatureFlagEscapeHatch, jsOr, hk, hv]

/-- Claim C2 witness for the amended statement, at the unregistered key
`"unregistered-key"` of the example registry. -/
theorem c2_escape_hatch_error_behavior_witness :
    Part003.getFeatureFlagAsync exampleRegistry none (.str "unregistered-key") none
      = .error (.thrown "unregistered key passed to getFeatureFlag") :=
  (c2_escape_hatch_error_behavior exampleRegistry none "unregistered-key" none
    (by decide)).2.1

/-- Claim C3: for every registered key, calling the flag accessors before
any client has been initialized is not an error: both the newer iteration's
`getFeatureFlagAsync` (after its informational log) and the `factory.tsx`
initial `globalGetFeatureFlag` resolve to the caller default if provided,
otherwise the registry default, and never throw or reject. -/
theorem c3_no_client_yields_defaults (ff : Registry) (key : String)
    (decl : FeatureFlagDecl) (d : Option FlagVal) (hk : lookupFlag ff key = some decl) :
    Part003.getFeatureFlagAsync ff none (.str key) d = .ok (d.getD decl.defaultVal)
    ∧ Factory.globalGetFeatureFlagInitial ff key d
      = .ok (some (d.getD decl.defaultVal)) := by
  constructor
  · simp [Part003.getFeatureFlagAsync, hk]
  · cases d <;> simp [Factory.globalGetFeatureFlagInitial, hk]

/-- Claim C3 witness: before initialization the example number flag
resolves to its registry default without error. -/
theorem c3_no_client_yields_defaults_witness :
    Part003.getFeatureFlagAsync exampleRegistry none (.str "example-number-feature-flag") none
      = .ok (FlagVal.n 123) :=
  (c3_no_client_yields_defaults exampleRegistry "example-number-feature-flag"
    ⟨FlagType.number, FlagVal.n 123⟩ none (by decide)).1

/-- Claim C4 counterexample: the claim fails on the `factory.tsx` variant —
its initialization effect has no guard, so after a client already exists a
later change of the props to new non-missing values constructs a second
client. -/
theorem c4_counterexample :
    (Factory.initStepTsx mkExampleClient initialInitState
        (some 1) (some 1)).globalLdClient.isSome = true
    ∧ (Factory.initStepTsx mkExampleClient
        (Factory.initStepTsx mkExampleClient initialInitState (some 1) (some 1))
        (some 2) (some 1)).initCount = 2 := ⟨rfl, rfl⟩

/-- Claim C4 (amended): in the newer iteration the Uninitialized →
Initializing transition is gated and fires at most once — over every event
sequence of prop changes and async completions, at most one client
construction / identify / configure sequence is performed; the
`factory.tsx` variant has no such gate and re-initializes on every prop
change with both props present. -/
theorem c4_part003_init_at_most_once (mk : Nat → LDClient) (events : List InitEvent) :
    (Part003.runInit mk events initialInitState).initCount ≤ 1 := by
  have h0 : InitInv initialInitState := by
    constructor
    · simp [initialInitState]
    · intro hc
      simp [initialInitState] at hc
  obtain ⟨h1, _⟩ := runInit_inv mk events initialInitState h0
  exact le_trans (Nat.le_add_right _ _) h1

/-- Claim C5: in the newer iteration, unmounting the provider runs the
stored cleanup and unregisters every per-flag listener, after which a
delivered flag-change event changes nothing and teardown is idempotent.
In `factory.tsx` the same destructor list is returned from the inner
`async` IIFE instead of the effect function, so React never receives a
cleanup and every listener registered at mount survives the unmount —
contradicting the code's own "clean up by calling each unregister listener
function" comment. -/
theorem c5_unmount_teardown :
    (Part003.unmount exampleRegistry
        (Part003.readyEffect exampleRegistry exampleClient freshWorld)).registered = []
    ∧ (∀ (gc : Option LDClient) (k : String),
        deliverFlagChange exampleRegistry gc
          (Part003.unmount exampleRegistry
            (Part003.readyEffect exampleRegistry exampleClient freshWorld)) k
        = Part003.unmount exampleRegistry
            (Part003.readyEffect exampleRegistry exampleClient freshWorld))
    ∧ Part003.unmount exampleRegistry
        (Part003.unmount exampleRegistry
          (Part003.readyEffect exampleRegistry exampleClient freshWorld))
      = Part003.unmount exampleRegistry
          (Part003.readyEffect exampleRegistry exampleClient freshWorld)
    ∧ (Factory.unmountTsx
        (Factory.readyEffectTsx exampleRegistry exampleClient freshWorld)).registered
      = ["example-boolean-feature-flag", "example-number-feature-flag",
         "example-string-feature-flag", "example-json-feature-flag"] := by
  refine ⟨rfl, ?_, rfl, rfl⟩
  intro gc k
  rfl

/-- Claim C6: when the provider reaches Ready, for every registry key it
immediately fetches that flag's value into the snapshot and registers a
listener for that key; a listener invocation for a key overwrites exactly
that key, leaving every other key's entry unchanged. -/
theorem c6_ready_populates_and_listeners (ff : Registry) (c : LDClient)
    (w : ProviderWorld) (k : String) (decl : FeatureFlagDecl)
    (hk : lookupFlag ff k = some decl) :
    lookupSnap (Part003.readyEffect ff c w).flags k = some (variationValue c k decl)
    ∧ (Part003.readyEffect ff c w).registered = w.registered ++ ff.map Prod.fst
    ∧ (∀ (flags : Snapshot),
        lookupSnap (Part003.listenerStep ff (some c) flags k) k
          = some (variationValue c k decl))
    ∧ (∀ (flags : Snapshot) (k2 : String), k2 ≠ k →
        lookupSnap (Part003.listenerStep ff (some c) flags k) k2 = lookupSnap flags k2) := by
  refine ⟨?_, rfl, ?_, ?_⟩
  · exact lookupSnap_foldl_mem ff c _ w.flags k decl hk (mem_keys_of_lookupFlag ff k decl hk)
  · intro flags
    unfold Part003.listenerStep
    rw [getFeatureFlagAsync_registered ff c k decl hk]
    exact lookupSnap_insert_self k (variationValue c k decl) flags
  · intro flags k2 hne
    unfold Part003.listenerStep
    rw [getFeatureFlagAsync_registered ff c k decl hk]
    exact lookupSnap_insert_ne k k2 (variationValue c k decl) flags hne

/-- Claim C6 witness: after the ready effect on the example registry, the
example number flag holds the freshly fetched client value. -/
theorem c6_ready_populates_and_listeners_witness :
    lookupSnap (Part003.readyEffect exampleRegistry exampleClient freshWorld).flags
      "example-number-feature-flag" = some (FlagVal.n 456) :=
  (c6_ready_populates_and_listeners exampleRegistry exampleClient freshWorld
    "example-number-feature-flag" ⟨FlagType.number, FlagVal.n 123⟩ (by decide)).1

/-- Claim C7 counterexample: the claim fails — the synchronous escape hatch
uses JS `||`, so a falsy observed snapshot value (`false` here, present in
the snapshot) is skipped and the caller default is returned instead. -/
theorem c7_counterexample :
    lookupSnap [("example-boolean-feature-flag", FlagVal.b false)]
      "example-boolean-feature-flag" = some (FlagVal.b false)
    ∧ Part003.getFeatureFlagEscapeHatch exampleRegistry
        (some [("example-boolean-feature-flag", FlagVal.b false)])
        "example-boolean-feature-flag" (some (FlagVal.b true))
      = .ok (FlagVal.b true) := ⟨rfl, rfl⟩

/-- Claim C7 (amended): the synchronous escape hatch returns the observed
snapshot value only when it is truthy; a falsy or absent snapshot value
falls through to the caller default when that is truthy, and otherwise to
the registry default. -/
theorem c7_escape_hatch_truthy_resolution (ff : Registry) (snap : Option Snapshot)
    (key : String) (d : Option FlagVal) (decl : FeatureFlagDecl)
    (hk : lookupFlag ff key = some decl) :
    (∀ v, snap.bind (fun f => lookupSnap f key) = some v → FlagVal.truthy v = true →
        Part003.getFeatureFlagEscapeHatch ff snap key d = .ok v)
    ∧ (jsTruthy (snap.bind (fun f => lookupSnap f key)) = false →
        ∀ v, d = some v → FlagVal.truthy v = true →
        Part003.getFeatureFlagEscapeHatch ff snap key d = .ok v)
    ∧ (jsTruthy (snap.bind (fun f => lookupSnap f key)) = false →
        jsTruthy d = false →
        Part003.getFeatureFlagEscapeHatch ff snap key d = .ok decl.defaultVal) := by
  refine ⟨?_, ?_, ?_⟩
  · intro v hv htr
    simp [Part003.getFeatureFlagEscapeHatch, jsOr, hv, htr]
  · intro hfalsy v hd htr
    subst hd
    cases hs : snap.bind (fun f => lookupSnap f key) with
    | none => simp [Part003.getFeatureFlagEscapeHatch, jsOr, hs, htr]
    | some w =>
      rw [hs] at hfalsy
      simp [jsTruthy] at hfalsy
      simp [Part003.getFeatureFlagEscapeHatch, jsOr, hs, hfalsy, htr]
  · intro hfalsy hdfalsy
    cases hs : snap.bind (fun f => lookupSnap f key) with
    | none =>
      cases hd : d with
      | none => simp [Part003.getFeatureFlagEscapeHatch, jsOr, hs, hk]
      | some v =>
        rw [hd] at hdfalsy
        simp [jsTruthy] at hdfalsy
        simp [Part003.getFeatureFlagEscapeHatch, jsOr, hs, hk, hdfalsy]
    | some w =>
      rw [hs] at hfalsy
      simp [jsTruthy] at hfalsy
      cases hd : d with
      | none => simp [Part003.getFeatureFlagEscapeHatch, jsOr, hs, hk, hfalsy]
      | some v =>
        rw [hd] at hdfalsy
        simp [jsTruthy] at hdfalsy
        simp [Part003.getFeatureFlagEscapeHatch, jsOr, hs, hk, hfalsy, hdfalsy]

/-- Claim C7 amended-statement witness: a truthy snapshot value is
returned as-is by the escape hatch. -/
theorem c7_escape_hatch_truthy_resolution_witness :
    Part003.getFeatureFlagEscapeHatch exampleRegistry
      (some [("example-boolean-feature-flag", FlagVal.b true)])
      "example-boolean-feature-flag" none = .ok (FlagVal.b true) :=
  (c7_escape_hatch_truthy_resolution exampleRegistry
    (some [("example-boolean-feature-flag", FlagVal.b true)])
    "example-boolean-feature-flag" none ⟨FlagType.boolean, FlagVal.b false⟩
    (by decide)).1 (FlagVal.b true) rfl rfl

/-- Claim C8 counterexample: the claim fails on the newer iteration — for
an Object flag with a live client it returns `jsonVariation`'s serialized
string as-is, not the parsed result. -/
theorem c8_counterexample :
    Part003.getFeatureFlagAsync exampleRegistry (some exampleClient)
      (.str "example-json-feature-flag") none = .ok (FlagVal.s "null")
    ∧ FlagVal.s "null" ≠ jsonParse "null" := ⟨rfl, by decide⟩

/-- Claim C8 (amended): with a live client both variants dispatch on the
declared flag type — Boolean via `boolVariation`, Number via
`numberVariation`, String via `stringVariation`, Object via
`jsonVariation` — passing the resolved default through; only the
`factory.tsx` variant parses the serialized `jsonVariation` result, the
newer iteration returns it unparsed. -/
theorem c8_type_dispatch (ff : Registry) (c : LDClient) (key : String)
    (d : Option FlagVal) (decl : FeatureFlagDecl) (hk : lookupFlag ff key = some decl) :
    (Part003.getFeatureFlagAsync ff (some c) (.str key) d =
      match decl.type with
      | .boolean => .ok (.b (c.boolVariation key (some (d.getD decl.defaultVal))))
      | .number => .ok (.n (c.numberVariation key (some (d.getD decl.defaultVal))))
      | .string => .ok (.s (c.stringVariation key (some (d.getD decl.defaultVal))))
      | .object => .ok (.s (c.jsonVariation key (some (d.getD decl.defaultVal)))))
    ∧ (Factory.getGetFeatureFlag ff c key d =
      match decl.type with
      | .boolean => .ok (some (.b (c.boolVariation key (some (d.getD decl.defaultVal)))))
      | .number => .ok (some (.n (c.numberVariation key (some (d.getD decl.defaultVal)))))
      | .string => .ok (some (.s (c.stringVariation key (some (d.getD decl.defaultVal)))))
      | .object => .ok (some (jsonParse
          (c.jsonVariation key (some (d.getD decl.defaultVal)))))) := by
  obtain ⟨t, d0⟩ := decl
  constructor
  · cases t <;> cases d <;>
      simp [Part003.getFeatureFlagAsync, hk]
  · cases t <;> cases d <;>
      simp [Factory.getGetFeatureFlag, hk]

/-- Claim C8 amended-statement witness: for the example Boolean flag with a
live client, both variants call `boolVariation` with the registry default
passed through. -/
theorem c8_type_dispatch_witness :
    Part003.getFeatureFlagAsync exampleRegistry (some exampleClient)
      (.str "example-boolean-feature-flag") none = .ok (FlagVal.b true)
    ∧ Factory.getGetFeatureFlag exampleRegistry exampleClient
      "example-boolean-feature-flag" none = .ok (some (FlagVal.b true)) :=
  c8_type_dispatch exampleRegistry exampleClient "example-boolean-feature-flag"
    none ⟨FlagType.boolean, FlagVal.b false⟩ (by decide)

/-- Claim C9: `useAllFeatureFlags` registers exactly one bulk listener per
client identity, eagerly fetches every registry key on the client becoming
ready, updates exactly the keys of each `updatedKeys` batch with values
matching a fresh per-key fetch, and its listener is unregistered by the
effect cleanup on unmount or client change. -/
theorem c9_useAllFeatureFlags_bulk_listener (ff : Registry) (c : LDClient) (uid : String)
    (w : AllFlagsWorld) (hw : w.registeredIds = []) :
    (Part003.allFlagsEffect ff c uid w).registeredIds = [uid]
    ∧ (∀ (k : String) (decl : FeatureFlagDecl), lookupFlag ff k = some decl →
        lookupSnap (Part003.allFlagsEffect ff c uid w).flags k
          = some (variationValue c k decl))
    ∧ (∀ (flags : Snapshot) (batch : List String) (k : String) (decl : FeatureFlagDecl),
        lookupFlag ff k = some decl → k ∈ batch →
        lookupSnap (Part003.allFlagsListener ff (some c) flags batch) k
          = some (variationValue c k decl))
    ∧ (∀ (flags : Snapshot) (batch : List String) (k : String), k ∉ batch →
        lookupSnap (Part003.allFlagsListener ff (some c) flags batch) k
          = lookupSnap flags k)
    ∧ (Part003.allFlagsCleanup uid (Part003.allFlagsEffect ff c uid w)).registeredIds
        = [] := by
  refine ⟨?_, ?_, ?_, ?_, ?_⟩
  · simp [Part003.allFlagsEffect, hw]
  · intro k decl hkd
    exact lookupSnap_foldl_mem ff c _ w.flags k decl hkd (mem_keys_of_lookupFlag ff k decl hkd)
  · intro flags batch k decl hkd hin
    exact lookupSnap_foldl_mem ff c batch flags k decl hkd hin
  · intro flags batch k hnin
    exact lookupSnap_foldl_not_mem ff (some c) batch flags k hnin
  · simp [Part003.allFlagsCleanup, Part003.allFlagsEffect, hw]

/-- Claim C9 witness: after the hook's effect, exactly the one bulk
listener id is registered. -/
theorem c9_useAllFeatureFlags_bulk_listener_witness :
    (Part003.allFlagsEffect exampleRegistry exampleClient "uid-1"
      freshAllFlagsWorld).registeredIds = ["uid-1"] :=
  (c9_useAllFeatureFlags_bulk_listener exampleRegistry exampleClient "uid-1"
    freshAllFlagsWorld rfl).1

/-- Claim C10: in the `factory.tsx` variant, the global accessor pair keeps
the escape-hatch fetcher bound to the currently held client: initially
`getGlobalLdClient` returns none and `getFeatureFlag` resolves to the
caller default or registry default without touching any client; after any
sequence of `setGlobalLdClient` calls ending in `c`, `getGlobalLdClient`
returns `c` and `getFeatureFlag` delegates to the fetcher built over `c`. -/
theorem c10_global_accessor_invariant (ff : Registry) :
    (Factory.getGlobalLdClient Factory.initialGlobalState = none
     ∧ ∀ (key : String) (d : Option FlagVal),
        Factory.getFeatureFlag ff Factory.initialGlobalState key d
          = .ok (match d with
              | some v => some v
              | none => (lookupFlag ff key).map (·.defaultVal)))
    ∧ ∀ (cs : List LDClient) (c : LDClient),
        Factory.getGlobalLdClient (Factory.runSets (cs ++ [c]) Factory.initialGlobalState)
            = some c
        ∧ ∀ (key : String) (d : Option FlagVal),
            Factory.getFeatureFlag ff (Factory.runSets (cs ++ [c]) Factory.initialGlobalState)
                key d
              = Factory.getGetFeatureFlag ff c key d := by
  refine ⟨⟨rfl, fun key d => rfl⟩, ?_⟩
  intro cs c
  have hrun : Factory.runSets (cs ++ [c]) Factory.initialGlobalState
      = Factory.setGlobalLdClient c (Factory.runSets cs Factory.initialGlobalState) := by
    unfold Factory.runSets
    rw [List.foldl_append]
    rfl
  rw [hrun]
  exact ⟨rfl, fun key d => rfl⟩

end LDFactory
